import Mathlib

/-!
Verification of the Deft-Threads-Automation content pipeline.

This file gives a shallow embedding of the post-generation, validation,
truncation, publishing and draft-status code of the repository
(src/ai/gpt_client.py, src/automation/post_generator.py,
src/api/threads_api.py, src/storage/post_storage.py, api/index.py) and
proves the specification claims about it.

Python strings are sequences of Unicode code points; they are modelled as
`List Char`.  External collaborators (the OpenAI API, the Threads HTTP
API, the Supabase store) are modelled as oracle arguments, and observable
side effects (network calls, sleeps) are returned as explicit event
traces so that temporal claims can be stated.
-/

namespace DeftThreads

/-- Python strings modelled as lists of Unicode code points. -/
abbrev Str := List Char

/-- Convert a Lean string literal to the model type. -/
def strOf (s : String) : Str := s.toList

/-- Python `str.strip()` whitespace class (the ASCII part, which is all the
code ever strips in practice). -/
def isSpaceChar (c : Char) : Bool :=
  c = ' ' || c = '\t' || c = '\n' || c = '\r' || c = '\x0b' || c = '\x0c'

/-- Python `str.strip()`: drop whitespace from both ends. -/
def stripBoth (l : Str) : Str :=
  ((l.dropWhile isSpaceChar).reverse.dropWhile isSpaceChar).reverse

/-- Python `str.lower()` (ASCII case folding; every string the code lowers
before comparing is ASCII). -/
def lowerStr (l : Str) : Str := l.map Char.toLower

/-- Python `str.startswith` on the model type. -/
def isPrefixList : Str → Str → Bool
  | [], _ => true
  | _ :: _, [] => false
  | a :: as, b :: bs => a = b && isPrefixList as bs

/-- Python `needle in hay` substring test. -/
def containsSub (needle : Str) : Str → Bool
  | [] => isPrefixList needle []
  | c :: rest => isPrefixList needle (c :: rest) || containsSub needle rest

/-- Python `str.rfind(c)`: index of the last occurrence of `c`, as an
`Option` (`none` plays the role of the Python result -1). -/
def rfindIdx : Str → Char → Option Nat
  | [], _ => none
  | a :: rest, c =>
    match rfindIdx rest c with
    | some i => some (i + 1)
    | none => if a = c then some 0 else none

/-- Python `str.endswith(c)` for a single character. -/
def endsWithChar (l : Str) (c : Char) : Bool :=
  match l.getLast? with
  | some d => d = c
  | none => false

/-- Python `str.startswith(c)` for a single character. -/
def startsWithChar (l : Str) (c : Char) : Bool :=
  match l.head? with
  | some d => d = c
  | none => false

/-- Python truthiness of an `Optional[str]`: `None` and `""` are falsy. -/
def truthyOpt (o : Option Str) : Bool :=
  match o with
  | some s => s ≠ []
  | none => false

/-- Python `a or b` on two `Optional[str]` values (returns `b` whenever `a`
is falsy). -/
def pyOr (a b : Option Str) : Option Str :=
  if truthyOpt a then a else b

/-- Python `text.split('\n')`: split on every newline, keeping empty
segments (the result is always non-empty). -/
def splitOnNl : Str → List Str
  | [] => [[]]
  | c :: rest =>
    let r := splitOnNl rest
    if c = '\n' then [] :: r
    else
      match r with
      | s :: ss => (c :: s) :: ss
      | [] => [[c]]

/-- Membership in the emoji Unicode block ranges of the character class used
by both `GPTClient.remove_emojis` and `GPTClient.validate_content`
(src/ai/gpt_client.py lines 43-58 and 233-248): emoticons, symbols and
pictographs, transport, flags, dingbats, the enclosed-characters span
U+24C2-U+1F251, supplemental symbols, chess symbols, extended-A symbols and
miscellaneous symbols. -/
def isEmojiChar (c : Char) : Bool :=
  let n := c.toNat
  (0x1F600 ≤ n && n ≤ 0x1F64F) ||
  (0x1F300 ≤ n && n ≤ 0x1F5FF) ||
  (0x1F680 ≤ n && n ≤ 0x1F6FF) ||
  (0x1F1E0 ≤ n && n ≤ 0x1F1FF) ||
  (0x2702 ≤ n && n ≤ 0x27B0) ||
  (0x24C2 ≤ n && n ≤ 0x1F251) ||
  (0x1F900 ≤ n && n ≤ 0x1F9FF) ||
  (0x1FA00 ≤ n && n ≤ 0x1FA6F) ||
  (0x1FA70 ≤ n && n ≤ 0x1FAFF) ||
  (0x2600 ≤ n && n ≤ 0x26FF) ||
  (0x2700 ≤ n && n ≤ 0x27BF)

/-- `GPTClient.remove_emojis` (src/ai/gpt_client.py lines 31-60):
a regex substitution of the empty string followed by strip.  Substituting the empty string for
every maximal run of class characters deletes exactly the characters of the
class, so the regex substitution is `List.filter` with the negated class;
the trailing `.strip()` is `stripBoth`. -/
def remove_emojis (text : Str) : Str :=
  stripBoth (text.filter (fun c => !isEmojiChar c))

/-- The qualifying sentence-end position for one candidate character in
`GPTClient._truncate_text_smart`: `truncated.rfind(end_char)` when that
index exceeds `max_chars * 0.7`.  The Python comparison `last > max_chars
* 0.7` is over floats; for a natural index `i` it is equivalent to
`10 * i > 7 * max_chars` (and at the only value the program ever passes,
`max_chars = 500`, the float product is exactly `350.0`). -/
def qualifying (truncated : Str) (maxChars : Nat) (c : Char) : Option Nat :=
  match rfindIdx truncated c with
  | some i => if 10 * i > 7 * maxChars then some i else none
  | none => none

/-- The `for end_char in ['?', '!', '.']` loop of
`GPTClient._truncate_text_smart`: the first candidate character whose last
occurrence qualifies wins, in the fixed order `'?'`, `'!'`, `'.'`. -/
def firstQualifying (truncated : Str) (maxChars : Nat) : Option Nat :=
  match qualifying truncated maxChars '?' with
  | some i => some i
  | none =>
    match qualifying truncated maxChars '!' with
    | some i => some i
    | none => qualifying truncated maxChars '.'

/-- Python `max(last_space, last_newline)` where `rfind` returns `-1` on a
miss. -/
def idxInt (o : Option Nat) : Int :=
  match o with
  | some i => (i : Int)
  | none => -1

/-- `GPTClient._truncate_text_smart` (src/ai/gpt_client.py lines 120-151).
The word-boundary comparison `last_break > max_chars * 0.8` is modelled as
`10 * last_break > 8 * max_chars` over `Int` (exact at `max_chars = 500`,
where the float product is exactly `400.0`). -/
def truncate_text_smart (text : Str) (maxChars : Nat) : Str :=
  if text.length ≤ maxChars then text
  else
    let truncated := text.take maxChars
    match firstQualifying truncated maxChars with
    | some i => stripBoth (text.take (i + 1))
    | none =>
      let lastBreak : Int := max (idxInt (rfindIdx truncated ' ')) (idxInt (rfindIdx truncated '\n'))
      if 10 * lastBreak > 8 * (maxChars : Int) then stripBoth (text.take lastBreak.toNat)
      else stripBoth truncated

/-- The CTA/question test of `GPTClient.truncate_to_limit` (src/ai/gpt_client.py
lines 84-89), applied to an already stripped line. -/
def ctaish (line : Str) : Bool :=
  line ≠ [] &&
    (endsWithChar line '?' || endsWithChar line '!' ||
     isPrefixList (strOf "what") (lowerStr line) ||
     isPrefixList (strOf "how") (lowerStr line) ||
     isPrefixList (strOf "why") (lowerStr line) ||
     containsSub (strOf "share") (lowerStr line) ||
     containsSub (strOf "thoughts") (lowerStr line))

/-- The backward scan of `GPTClient.truncate_to_limit` (lines 82-92): the
greatest line index whose stripped line passes `ctaish`, together with that
stripped line. -/
def findCtaFromEnd : List Str → Option (Nat × Str)
  | [] => none
  | l :: rest =>
    match findCtaFromEnd rest with
    | some (i, s) => some (i + 1, s)
    | none =>
      let s := stripBoth l
      if ctaish s then some (0, s) else none

/-- `GPTClient.truncate_to_limit` (src/ai/gpt_client.py lines 62-118).
When a CTA line is found, the code tests
`text_before_length + last_line_length + 1 <= max_chars`; inside that
branch the nested test `... > max_chars` is the exact negation of the
guard, so its then-branch is unreachable and the else-branch
the rejoin of the preamble, a blank line and the last line always runs.  When the
guard fails (or no CTA line exists) control falls through to
`_truncate_text_smart`. -/
def truncate_to_limit (text : Str) (maxChars : Nat) : Str :=
  if text.length ≤ maxChars then text
  else
    let lines := splitOnNl text
    match findCtaFromEnd lines with
    | some (idx, lastLine) =>
      let before := List.intercalate (strOf "\n") (lines.take idx)
      if before.length + lastLine.length + 1 ≤ maxChars then
        before ++ strOf "\n\n" ++ lastLine
      else truncate_text_smart text maxChars
    | none => truncate_text_smart text maxChars

/-- The low-content artifact literal tested by `GPTClient.validate_content`
(the word Here followed by an apostrophe, U+0027, and the letter s), built
from a character code. -/
def heresLit : Str := strOf "Here" ++ [Char.ofNat 39] ++ strOf "s"

/-- The validation rules: empty, over 500 characters, under 10 characters,
emoji characters remaining, or the low-content artifact pattern. -/
def validate_content (text : Str) : Bool × Str :=
  if text = [] || stripBoth text = [] then (false, strOf "Content is empty")
  else if text.length > 500 then
    (false, strOf "Content too long (" ++ strOf (toString text.length) ++ strOf " chars, max 500)")
  else if text.length < 10 then (false, strOf "Content too short")
  else if text.any isEmojiChar then (false, strOf "Content contains emojis (not allowed)")
  else if isPrefixList heresLit text && text.length < 50 then
    (false, strOf "Content appears incomplete")
  else (true, [])

/-- Observable events of `GPTClient.generate_post`: one API invocation per
attempt, and the `time.sleep` between failed attempts (argument in
seconds). -/
inductive GEvent where
  | apiCall (attempt : Nat)
  | sleepFor (seconds : Nat)
deriving DecidableEq, Repr

/-- The post-processing applied by `GPTClient.generate_post` to a successful
model response (src/ai/gpt_client.py lines 188-201): `.strip()`, removal of
a wrapping double-quote pair, `remove_emojis`, and `truncate_to_limit` when
still over 500 characters. -/
def post_process (raw : Str) : Str :=
  let t0 := stripBoth raw
  let t1 := if startsWithChar t0 '"' && endsWithChar t0 '"' then (t0.drop 1).dropLast else t0
  let t2 := remove_emojis t1
  if t2.length > 500 then truncate_to_limit t2 500 else t2

/-- The `for attempt in range(self.max_retries)` loop of
`GPTClient.generate_post` with `max_retries = 3` (set in `__init__`).  The
oracle `api` gives, per attempt index, either the raw response content or
`none` for a raised collaborator exception (every exception is caught by
the `except` arm, so none escapes).  After a failed attempt with
`attempt < max_retries - 1` the client sleeps `retry_delay * (attempt + 1)`
seconds.  The fuel argument mirrors the loop bound; the fuel-zero result is
the `return None` after the loop, which is unreachable. -/
def generatePostLoop (d : Nat) (api : Nat → Option Str) : Nat → Nat → Option Str × List GEvent
  | _, 0 => (none, [])
  | attempt, fuel + 1 =>
    match api attempt with
    | some raw => (some (post_process raw), [GEvent.apiCall attempt])
    | none =>
      if attempt < 3 - 1 then
        let rest := generatePostLoop d api (attempt + 1) fuel
        (rest.1, GEvent.apiCall attempt :: GEvent.sleepFor (d * (attempt + 1)) :: rest.2)
      else (none, [GEvent.apiCall attempt])

/-- `GPTClient.generate_post` (src/ai/gpt_client.py lines 153-211), with the
instance field `retry_delay` as the parameter `d` (the source sets it to
2). -/
def generate_post (d : Nat) (api : Nat → Option Str) : Option Str × List GEvent :=
  generatePostLoop d api 0 3

/-- The result dictionary of `PostGenerator.generate_post_for_brief`
(src/automation/post_generator.py).  Keys absent from a given return site
are modelled as `none`; `brief` is the back-reference to the originating
brief. -/
structure GenResult (β : Type) where
  brief : β
  generated_post : Option Str
  error : Option Str
  valid : Bool
  prompt_used : Option Str
  attempts : Nat
deriving Repr

/-- The `for attempt in range(max_attempts)` loop of
`PostGenerator.generate_post_for_brief` (src/automation/post_generator.py
lines 71-128).  `gen` is the generation-client oracle (attempt index and
prompt to produced text, `none` for failure), `buildPrompt` is
`PromptBuilder.build_post_prompt` applied to the brief with the given
`strict_length` flag.  The second component of the result is the list of
prompts sent to the generation client, in order.  The Python test
`if not generated_text` treats both `None` and the empty string as
failure.  The fuel-zero case is the unreachable fall-through return after
the loop. -/
def genForBriefLoop {β : Type} (b : β) (gen : Nat → Str → Option Str)
    (buildPrompt : Bool → Str) (retry : Bool) (maxA : Nat) :
    Nat → Nat → GenResult β × List Str
  | _, 0 =>
    (⟨b, none, some (strOf "Failed after all retry attempts"), false, none, maxA⟩, [])
  | attempt, fuel + 1 =>
    let strict := decide (attempt > 0)
    let prompt := buildPrompt strict
    match gen attempt prompt with
    | none =>
      (⟨b, none, some (strOf "Failed to generate post"), false, none, attempt + 1⟩, [prompt])
    | some t =>
      if t = [] then
        (⟨b, none, some (strOf "Failed to generate post"), false, none, attempt + 1⟩, [prompt])
      else
        let v := validate_content t
        if v.1 then (⟨b, some t, none, true, some prompt, attempt + 1⟩, [prompt])
        else if retry && containsSub (strOf "too long") (lowerStr v.2) && attempt < maxA - 1 then
          let rest := genForBriefLoop b gen buildPrompt retry maxA (attempt + 1) fuel
          (rest.1, prompt :: rest.2)
        else (⟨b, some t, some v.2, false, some prompt, attempt + 1⟩, [prompt])

/-- `PostGenerator.generate_post_for_brief` (src/automation/post_generator.py
lines 58-128): `max_attempts = 2 if retry_on_length_error else 1`. -/
def generate_post_for_brief {β : Type} (b : β) (gen : Nat → Str → Option Str)
    (buildPrompt : Bool → Str) (retry : Bool) : GenResult β × List Str :=
  let maxA := if retry then 2 else 1
  genForBriefLoop b gen buildPrompt retry maxA 0 maxA

/-- The result dictionary of `PostGenerator.generate_post_from_analysis`.
The early fetch/analysis failure returns carry neither `attempts` nor
`prompt_used` keys, so both are `Option`; `analysisRef` is the
back-reference to the computed analysis. -/
structure AnalysisResult (α : Type) where
  generated_post : Option Str
  error : Option Str
  valid : Bool
  prompt_used : Option Str
  analysisRef : Option α
  attempts : Option Nat

/-- The generation loop of `PostGenerator.generate_post_from_analysis`
(src/automation/post_generator.py lines 285-341), after the analysis `a`
has been computed.  `mkPrompt` is `PromptBuilder.build_style_based_prompt`
applied to the topic and formatted analysis with the given `strict_length`
flag. -/
def genFromAnalysisLoop {α : Type} (a : α) (gen : Nat → Str → Option Str)
    (mkPrompt : Bool → Str) (retry : Bool) (maxA : Nat) :
    Nat → Nat → AnalysisResult α × List Str
  | _, 0 =>
    (⟨none, some (strOf "Failed after all retry attempts"), false, none, some a, some maxA⟩, [])
  | attempt, fuel + 1 =>
    let strict := decide (attempt > 0)
    let prompt := mkPrompt strict
    match gen attempt prompt with
    | none =>
      (⟨none, some (strOf "Failed to generate post"), false, none, some a, some (attempt + 1)⟩,
       [prompt])
    | some t =>
      if t = [] then
        (⟨none, some (strOf "Failed to generate post"), false, none, some a, some (attempt + 1)⟩,
         [prompt])
      else
        let v := validate_content t
        if v.1 then
          (⟨some t, none, true, some prompt, some a, some (attempt + 1)⟩, [prompt])
        else if retry && containsSub (strOf "too long") (lowerStr v.2) && attempt < maxA - 1 then
          let rest := genFromAnalysisLoop a gen mkPrompt retry maxA (attempt + 1) fuel
          (rest.1, prompt :: rest.2)
        else (⟨some t, some v.2, false, some prompt, some a, some (attempt + 1)⟩, [prompt])

/-- `PostGenerator.generate_post_from_analysis` (src/automation/post_generator.py
lines 238-341).  `posts` is the `ThreadsAPI.get_user_threads` oracle
(`none` models a fetch failure; the Python test `if not posts` also treats an
empty list as failure), `analyze` is `PostAnalyzer.analyze_posts` (`none`
models a falsy analysis), and `mkPrompt` builds the style-based prompt from
the analysis and the strict flag. -/
def generate_post_from_analysis {α γ : Type} (posts : Option (List γ))
    (analyze : List γ → Option α) (mkPrompt : α → Bool → Str)
    (gen : Nat → Str → Option Str) (retry : Bool) : AnalysisResult α × List Str :=
  let maxA := if retry then 2 else 1
  match posts with
  | none =>
    (⟨none, some (strOf "Could not fetch posts for analysis"), false, none, none, none⟩, [])
  | some ps =>
    if ps.isEmpty then
      (⟨none, some (strOf "Could not fetch posts for analysis"), false, none, none, none⟩, [])
    else
      match analyze ps with
      | none => (⟨none, some (strOf "Post analysis failed"), false, none, none, none⟩, [])
      | some a => genFromAnalysisLoop a gen (mkPrompt a) retry maxA 0 maxA

/-- Network operations of `ThreadsAPI.post_thread`: the `/me` user-id GET
(inside `get_user_id`), the thread-creation POST and the manual-publish
POST. -/
inductive NetOp where
  | getUserIdCall
  | createThreadCall
  | publishThreadCall
deriving DecidableEq, Repr

/-- The fields of a Threads API JSON response that `post_thread` reads. -/
structure ApiResp where
  status_code : Nat
  creation_id : Option Str
  id : Option Str

/-- The result dictionary of `ThreadsAPI.post_thread`.  The raw-payload
keys `response` and `detail` only echo collaborator output and are not
modelled; absent keys are `none`. -/
structure PostThreadResult where
  success : Bool
  error : Option Str
  id : Option Str
  thread_id : Option Str
  creation_id : Option Str
  status_code : Option Nat

/-- `ThreadsAPI.post_thread` (src/api/threads_api.py lines 130-312).
Oracles: `uid` is the `get_user_id` outcome (that call performs the `/me`
network GET), `createResp` the creation POST (`Except.error` carries the
text of a raised `requests` exception) and `pubResp` the manual-publish
POST.  The second component is the trace of network operations in order.
The Python or-expression over the creation_id and id fields of the
response, and the truthiness tests on creation_id and thread_id, are
modelled by `pyOr` and `truthyOpt`. -/
def post_thread (text : Str) (autoPub : Bool) (uid : Option Str)
    (createResp : Except Str ApiResp) (pubResp : Except Str ApiResp) :
    PostThreadResult × List NetOp :=
  if text.length > 500 then
    ({ success := false, error := some (strOf "Thread text cannot exceed 500 characters"),
       id := none, thread_id := none, creation_id := none, status_code := some 400 }, [])
  else
    match uid with
    | none =>
      ({ success := false, error := some (strOf "Could not get user ID from Threads API"),
         id := none, thread_id := none, creation_id := none, status_code := some 401 },
       [NetOp.getUserIdCall])
    | some _ =>
      match createResp with
      | .error e =>
        ({ success := false, error := some (strOf "Network error: " ++ e),
           id := none, thread_id := none, creation_id := none, status_code := some 0 },
         [NetOp.getUserIdCall, NetOp.createThreadCall])
      | .ok resp =>
        if resp.status_code = 200 then
          let creationId := pyOr resp.creation_id resp.id
          if autoPub then
            if truthyOpt creationId then
              ({ success := true, error := none, id := creationId, thread_id := creationId,
                 creation_id := creationId, status_code := none },
               [NetOp.getUserIdCall, NetOp.createThreadCall])
            else
              -- falls through the auto-publish branch to the trailing block,
              -- where `if creation_id:` is still falsy
              ({ success := false, error := some (strOf "Thread created but no ID returned"),
                 id := none, thread_id := none, creation_id := none, status_code := none },
               [NetOp.getUserIdCall, NetOp.createThreadCall])
          else
            if truthyOpt creationId then
              match pubResp with
              | .error e =>
                ({ success := false, error := some (strOf "Network error during publish: " ++ e),
                   id := none, thread_id := none, creation_id := creationId,
                   status_code := some 0 },
                 [NetOp.getUserIdCall, NetOp.createThreadCall, NetOp.publishThreadCall])
              | .ok pr =>
                if pr.status_code = 200 then
                  if truthyOpt pr.id then
                    ({ success := true, error := none, id := pr.id, thread_id := pr.id,
                       creation_id := creationId, status_code := none },
                     [NetOp.getUserIdCall, NetOp.createThreadCall, NetOp.publishThreadCall])
                  else
                    ({ success := false,
                       error := some (strOf "Publish succeeded but no thread ID in response"),
                       id := none, thread_id := none, creation_id := creationId,
                       status_code := none },
                     [NetOp.getUserIdCall, NetOp.createThreadCall, NetOp.publishThreadCall])
                else
                  ({ success := false,
                     error := some (strOf "Error publishing thread: HTTP " ++
                       strOf (toString pr.status_code)),
                     id := none, thread_id := none, creation_id := creationId,
                     status_code := some pr.status_code },
                   [NetOp.getUserIdCall, NetOp.createThreadCall, NetOp.publishThreadCall])
            else
              ({ success := false,
                 error := some (strOf "No creation_id returned from thread creation"),
                 id := none, thread_id := none, creation_id := none, status_code := none },
               [NetOp.getUserIdCall, NetOp.createThreadCall])
        else
          ({ success := false,
             error := some (strOf "Error creating thread: HTTP " ++
               strOf (toString resp.status_code)),
             id := none, thread_id := none, creation_id := none,
             status_code := some resp.status_code },
           [NetOp.getUserIdCall, NetOp.createThreadCall])

/-- Observable events of `PostGenerator.post_multiple_approved`: the
per-item publish call (index into the filtered valid list) and the
`time.sleep(delay_seconds)` between consecutive publishes. -/
inductive PEvent where
  | publishItem (idx : Nat)
  | waitFor (seconds : Nat)
deriving DecidableEq, Repr

/-- The body of the `for i, result in enumerate(valid_posts, 1)` loop of
`PostGenerator.post_multiple_approved` over the remaining zero-based
indices.  `outcome i` is the success flag of `post_approved_post` on the
`i`-th valid item (that call always returns a result dictionary and never
raises past the catch-all handling of `ThreadsAPI.post_thread`, so a single
failure does not abort the loop); the sleep runs only when another item
follows (`if i < len(valid_posts)` with one-based `i`). -/
def batchGo (outcome : Nat → Bool) (d total : Nat) : List Nat → List Bool × List PEvent
  | [] => ([], [])
  | i :: rest =>
    let res := outcome i
    let r := batchGo outcome d total rest
    (res :: r.1,
     PEvent.publishItem i :: (if i + 1 < total then PEvent.waitFor d :: r.2 else r.2))

/-- `PostGenerator.post_multiple_approved` (src/automation/post_generator.py
lines 203-236): filter the results to `valid_posts = [r for r in results if
r.get("valid")]`, then publish them sequentially.  Each input item is the
pair of its truthy `valid` flag and its payload. -/
def post_multiple_approved {ρ : Type} (results : List (Bool × ρ))
    (outcome : Nat → Bool) (d : Nat) : List Bool × List PEvent :=
  let n := (results.filter (fun r => r.1)).length
  batchGo outcome d n (List.range n)

/-- A draft/post row of the `pending_posts` table as read and written by
`PostStorage` (src/storage/post_storage.py); the metadata blob is an
opaque type parameter. -/
structure DraftPost (μ : Type) where
  post_text : Str
  mode : Str
  metadata : μ
  status : Str
  created_at : Str
  approved_at : Option Str
  published_at : Option Str
  thread_id : Option Str
  thread_url : Option Str

/-- `PostStorage.update_status` (src/storage/post_storage.py lines 97-133)
applied to the stored row `p`: the Supabase `.update(update_data)` merges
exactly the keys of `update_data` into the row.  `now` stands for
`datetime.utcnow().isoformat()`; the `if thread_id:` / `if thread_url:`
guards use Python string truthiness. -/
def update_status {μ : Type} (p : DraftPost μ) (status : Str)
    (tid turl : Option Str) (now : Str) : DraftPost μ :=
  { p with
    status := status
    approved_at := if status = strOf "approved" then some now else p.approved_at
    published_at := if status = strOf "published" then some now else p.published_at
    thread_id := if status = strOf "published" && truthyOpt tid then tid else p.thread_id
    thread_url := if status = strOf "published" && truthyOpt turl then turl else p.thread_url }

/-- The status-changing API operations served by the deployed app
(api/index.py via api/handler.py): approve, reject, and publish, the last
carrying whether the Threads publish call succeeded.  (api/approve.py
contains an older duplicate of these handlers, but that module references
`Optional` without importing it and therefore fails at import time; the
live handlers are the ones in api/index.py.) -/
inductive DraftOp where
  | approve
  | reject
  | publish (apiSuccess : Bool)

/-- The draft-status transition implemented by the api/index.py handlers
(lines 382-510), expressed on the stored status string.  A guard failure
(HTTP 400) or a failed Threads call leaves the status unchanged;
`approve_post` rejects published and rejected drafts and otherwise writes
"approved" (re-approval included), `reject_post` only accepts pending
drafts, and `publish_post` accepts approved or pending drafts and advances
them to "published" only when the Threads publish succeeds. -/
def stepStatus : DraftOp → Str → Str
  | .approve, s =>
    if s = strOf "published" || s = strOf "rejected" then s else strOf "approved"
  | .reject, s => if s = strOf "pending" then strOf "rejected" else s
  | .publish ok, s =>
    if (s = strOf "approved" || s = strOf "pending") && ok then strOf "published" else s

/-- A sequence of approval-API operations applied to a draft status. -/
def runOps (ops : List DraftOp) (s : Str) : Str :=
  ops.foldl (fun st op => stepStatus op st) s

/-- Number of model invocations recorded in a `generate_post` event trace. -/
def countApiCalls (tr : List GEvent) : Nat :=
  tr.countP (fun e => match e with | .apiCall _ => true | .sleepFor _ => false)

/-- A 600-character text whose last `'?'` sits at index 400 and whose last
sentence-ending character before the 500-character cut point is the `'.'`
at index 490. -/
def exC4 : Str :=
  List.replicate 400 'a' ++ '?' :: (List.replicate 89 'b' ++ '.' :: List.replicate 109 'c')

/-- The smiling-face emoji U+1F642 between two spaces, surrounded by plain
letters. -/
def exC8 : Str := ['a', ' ', Char.ofNat 0x1F642, ' ', 'b']

/-- A 502-character text: 496 `'a'`s, a newline, the CTA line `"bb?"`, a
newline and a non-CTA trailing line, so that the preserved-CTA rejoin
produces exactly 501 characters. -/
def exC9 : Str :=
  List.replicate 496 'a' ++ '\n' :: 'b' :: 'b' :: '?' :: '\n' :: ['z']

/-- A generation-model oracle that raises on the first attempt and succeeds
afterwards. -/
def apiFailFirst : Nat → Option Str :=
  fun n => if n = 0 then none else some (strOf "hello")

/-- A generation-client oracle returning a fixed valid 20-character text. -/
def genOk : Nat → Str → Option Str :=
  fun _ _ => some (List.replicate 20 'x')

/-- A generation-client oracle returning a 520-character text on the first
attempt and a valid 20-character text on the retry. -/
def genLongThenOk : Nat → Str → Option Str :=
  fun a _ => if a = 0 then some (List.replicate 520 'x') else some (List.replicate 20 'x')

/-- A prompt builder distinguishing the strict-length variant from the
normal one. -/
def bpW : Bool → Str :=
  fun strict => if strict then strOf "strict prompt" else strOf "normal prompt"

/-- A sample stored draft row used to instantiate the storage theorems. -/
def samplePost : DraftPost Unit :=
  { post_text := strOf "hello there", mode := strOf "briefs", metadata := ()
    status := strOf "pending", created_at := strOf "2025-01-01T00:00:00"
    approved_at := none, published_at := none, thread_id := none, thread_url := none }

/-! ## Helper lemmas -/

lemma length_dropWhile_le (p : Char → Bool) (l : Str) :
    (l.dropWhile p).length ≤ l.length :=
  (List.dropWhile_sublist p).length_le

lemma stripBoth_sublist (l : Str) : List.Sublist (stripBoth l) l := by
  have h1 : List.Sublist (l.dropWhile isSpaceChar) l := List.dropWhile_sublist _
  have h2 : List.Sublist ((l.dropWhile isSpaceChar).reverse.dropWhile isSpaceChar)
      (l.dropWhile isSpaceChar).reverse := List.dropWhile_sublist _
  have h3 : List.Sublist (stripBoth l) ((l.dropWhile isSpaceChar).reverse.reverse) := by
    unfold stripBoth
    exact List.reverse_sublist.mpr h2
  rw [List.reverse_reverse] at h3
  exact h3.trans h1

lemma stripBoth_length_le (l : Str) : (stripBoth l).length ≤ l.length :=
  (stripBoth_sublist l).length_le

lemma dropWhile_eq_self_of_false (p : Char → Bool) (l : Str)
    (h : ∀ c ∈ l, p c = false) : l.dropWhile p = l := by
  cases l with
  | nil => rfl
  | cons a t =>
    rw [List.dropWhile_cons, h a (by simp)]
    simp

lemma stripBoth_eq_self_of_no_space (l : Str)
    (h : ∀ c ∈ l, isSpaceChar c = false) : stripBoth l = l := by
  unfold stripBoth
  rw [dropWhile_eq_self_of_false _ _ h,
    dropWhile_eq_self_of_false _ _ (fun c hc => h c (List.mem_reverse.mp hc)),
    List.reverse_reverse]

lemma rfindIdx_lt_length (l : Str) (c : Char) :
    ∀ i, rfindIdx l c = some i → i < l.length := by
  induction l with
  | nil => intro i h; simp [rfindIdx] at h
  | cons a t ih =>
    intro i h
    rw [rfindIdx] at h
    rcases ht : rfindIdx t c with _ | j <;> rw [ht] at h <;> dsimp only at h
    · split_ifs at h with ha
      injection h with h
      subst h
      simp
    · injection h with h
      subst h
      have := ih j ht
      simp only [List.length_cons]
      omega

lemma rfindIdx_append (l1 l2 : Str) (c : Char) :
    rfindIdx (l1 ++ l2) c =
      match rfindIdx l2 c with
      | some j => some (l1.length + j)
      | none => rfindIdx l1 c := by
  induction l1 with
  | nil => cases h : rfindIdx l2 c <;> simp [rfindIdx, h]
  | cons a t ih =>
    show rfindIdx (a :: (t ++ l2)) c = _
    rw [rfindIdx, ih]
    cases h2 : rfindIdx l2 c <;> cases ht : rfindIdx t c <;>
      simp [rfindIdx, ht, List.length_cons] <;> omega

lemma rfindIdx_replicate_of_ne (n : Nat) (a c : Char) (h : ¬ a = c) :
    rfindIdx (List.replicate n a) c = none := by
  induction n with
  | zero => rfl
  | succ n ih => rw [List.replicate_succ, rfindIdx, ih]; simp [h]

lemma qualifying_some (tr : Str) (mx : Nat) (c : Char) :
    ∀ i, qualifying tr mx c = some i → i < tr.length ∧ 10 * i > 7 * mx := by
  intro i h
  unfold qualifying at h
  rcases hf : rfindIdx tr c with _ | j <;> rw [hf] at h <;> dsimp only at h
  · simp at h
  · split_ifs at h with hq
    injection h with h
    subst h
    exact ⟨rfindIdx_lt_length _ _ _ hf, hq⟩

lemma firstQualifying_some (tr : Str) (mx : Nat) :
    ∀ i, firstQualifying tr mx = some i → i < tr.length ∧ 10 * i > 7 * mx := by
  intro i h
  unfold firstQualifying at h
  rcases h1 : qualifying tr mx '?' with _ | j <;> rw [h1] at h <;> dsimp only at h
  · rcases h2 : qualifying tr mx '!' with _ | j <;> rw [h2] at h <;> dsimp only at h
    · exact qualifying_some tr mx '.' i h
    · injection h with h
      subst h
      exact qualifying_some tr mx '!' _ h2
  · injection h with h
    subst h
    exact qualifying_some tr mx '?' _ h1

lemma truncate_text_smart_length_le (text : Str) (mx : Nat) :
    (truncate_text_smart text mx).length ≤ mx := by
  unfold truncate_text_smart
  by_cases hlen : text.length ≤ mx
  · simp [hlen]
  · simp only [hlen, if_false]
    rcases hq : firstQualifying (text.take mx) mx with _ | i <;> simp only [hq]
    · set sp := rfindIdx (text.take mx) ' ' with hsp
      set nl := rfindIdx (text.take mx) '\n' with hnl
      split_ifs with hb
      · have hlb : (max (idxInt sp) (idxInt nl)).toNat < (text.take mx).length := by
          rcases hs : sp with _ | j <;> rcases hn : nl with _ | k <;>
            simp only [hs, hn, idxInt] at hb ⊢
          · omega
          · have := rfindIdx_lt_length _ _ _ (hnl ▸ hn)
            omega
          · have := rfindIdx_lt_length _ _ _ (hsp ▸ hs)
            omega
          · have h1 := rfindIdx_lt_length _ _ _ (hsp ▸ hs)
            have h2 := rfindIdx_lt_length _ _ _ (hnl ▸ hn)
            omega
        have hmx : (text.take mx).length = mx := by
          rw [List.length_take]; omega
        calc (stripBoth (text.take (max (idxInt sp) (idxInt nl)).toNat)).length
            ≤ (text.take (max (idxInt sp) (idxInt nl)).toNat).length :=
              stripBoth_length_le _
          _ ≤ (max (idxInt sp) (idxInt nl)).toNat := List.length_take_le _ _
          _ ≤ mx := by omega
      · calc (stripBoth (text.take mx)).length ≤ (text.take mx).length :=
              stripBoth_length_le _
          _ ≤ mx := List.length_take_le _ _
    · have hi := firstQualifying_some _ _ _ hq
      have hmx : (text.take mx).length = mx := by
        rw [List.length_take]; omega
      calc (stripBoth (text.take (i + 1))).length
          ≤ (text.take (i + 1)).length := stripBoth_length_le _
        _ ≤ i + 1 := List.length_take_le _ _
        _ ≤ mx := by omega

lemma truncate_to_limit_length_le (text : Str) :
    (truncate_to_limit text 500).length ≤ 501 := by
  unfold truncate_to_limit
  by_cases hlen : text.length ≤ 500
  · simp only [hlen, if_true]
    omega
  · simp only [hlen, if_false]
    rcases hc : findCtaFromEnd (splitOnNl text) with _ | ⟨idx, lastLine⟩ <;>
      simp only [hc]
    · exact le_trans (truncate_text_smart_length_le _ _) (by omega)
    · split_ifs with hg
      · have h2 : (strOf "\n\n").length = 2 := rfl
        simp only [List.length_append, h2]
        omega
      · exact le_trans (truncate_text_smart_length_le _ _) (by omega)

lemma stepStatus_published (op : DraftOp) :
    stepStatus op (strOf "published") = strOf "published" := by
  rcases op with _ | _ | ok
  · decide
  · decide
  · cases ok <;> decide

lemma stepStatus_rejected (op : DraftOp) :
    stepStatus op (strOf "rejected") = strOf "rejected" := by
  rcases op with _ | _ | ok
  · decide
  · decide
  · cases ok <;> decide

lemma runOps_published (ops : List DraftOp) :
    runOps ops (strOf "published") = strOf "published" := by
  induction ops with
  | nil => rfl
  | cons op rest ih =>
    unfold runOps at ih ⊢
    rw [List.foldl_cons, stepStatus_published op]
    exact ih

lemma runOps_rejected (ops : List DraftOp) :
    runOps ops (strOf "rejected") = strOf "rejected" := by
  induction ops with
  | nil => rfl
  | cons op rest ih =>
    unfold runOps at ih ⊢
    rw [List.foldl_cons, stepStatus_rejected op]
    exact ih

/-! ## Claim theorems -/

set_option maxRecDepth 20000 in
/-- C9: `truncate_to_limit` at the 500-character limit returns at most 501
characters, not 500 — the CTA-preserving branch checks that the preamble
and the stripped last line fit with a one-character separator but rejoins
them with the two-character separator `"\n\n"`, and the bound 501 is
attained at `exC9` — while the fallback `truncate_text_smart` alone always
returns at most `maxChars` characters. -/
theorem c9_truncate_bound_is_501 :
    (∀ text : Str, (truncate_to_limit text 500).length ≤ 501) ∧
    (truncate_to_limit exC9 500).length = 501 ∧
    (∀ (text : Str) (mx : Nat), (truncate_text_smart text mx).length ≤ mx) :=
  ⟨fun text => truncate_to_limit_length_le text, by decide,
   fun text mx => truncate_text_smart_length_le text mx⟩

/-- C10: `PostStorage.update_status` applies no transition guard — it
writes the requested status for every current status — sets `approved_at`
exactly when the requested status is "approved", sets `published_at` (and
`thread_id`/`thread_url` when supplied non-empty) exactly when the
requested status is "published", and never modifies `post_text`, `mode`,
`metadata` or `created_at`. -/
theorem c10_update_status_unconditional_frame {μ : Type} (p : DraftPost μ)
    (s : Str) (tid turl : Option Str) (now : Str) :
    (update_status p s tid turl now).status = s ∧
    (update_status p s tid turl now).post_text = p.post_text ∧
    (update_status p s tid turl now).mode = p.mode ∧
    (update_status p s tid turl now).metadata = p.metadata ∧
    (update_status p s tid turl now).created_at = p.created_at ∧
    (s = strOf "approved" → (update_status p s tid turl now).approved_at = some now) ∧
    (s ≠ strOf "approved" → (update_status p s tid turl now).approved_at = p.approved_at) ∧
    (s = strOf "published" → (update_status p s tid turl now).published_at = some now) ∧
    (s ≠ strOf "published" → (update_status p s tid turl now).published_at = p.published_at) ∧
    (∀ t : Str, s = strOf "published" → tid = some t → t ≠ [] →
      (update_status p s tid turl now).thread_id = some t) ∧
    (s = strOf "published" → tid = none →
      (update_status p s tid turl now).thread_id = p.thread_id) ∧
    (s ≠ strOf "published" → (update_status p s tid turl now).thread_id = p.thread_id) ∧
    (∀ u : Str, s = strOf "published" → turl = some u → u ≠ [] →
      (update_status p s tid turl now).thread_url = some u) ∧
    (s ≠ strOf "published" → (update_status p s tid turl now).thread_url = p.thread_url) := by
  refine ⟨rfl, rfl, rfl, rfl, rfl, ?_, ?_, ?_, ?_, ?_, ?_, ?_, ?_, ?_⟩
  · intro h
    simp [update_status, h]
  · intro h
    simp [update_status, h]
  · intro h
    simp [update_status, h]
  · intro h
    simp [update_status, h]
  · intro t hs htid hne
    subst hs
    subst htid
    simp [update_status, truthyOpt, hne]
  · intro hs htid
    subst hs
    subst htid
    simp [update_status, truthyOpt]
  · intro h
    simp [update_status, h]
  · intro u hs hurl hne
    subst hs
    subst hurl
    simp [update_status, truthyOpt, hne]
  · intro h
    simp [update_status, h]

/-- Witness for C10: a concrete approval stamps `approved_at`, a concrete
publish with a non-empty thread id stores it, and `post_text` is untouched. -/
theorem c10_witness :
    (update_status samplePost (strOf "approved") none none (strOf "T")).approved_at
      = some (strOf "T") ∧
    (update_status samplePost (strOf "published") (some (strOf "id1")) none
      (strOf "T")).thread_id = some (strOf "id1") ∧
    (update_status samplePost (strOf "published") (some (strOf "id1")) none
      (strOf "T")).post_text = samplePost.post_text := by
  obtain ⟨-, -, -, -, -, h6, -, -, -, -, -, -, -, -⟩ :=
    c10_update_status_unconditional_frame samplePost (strOf "approved") none none (strOf "T")
  obtain ⟨-, h2, -, -, -, -, -, -, -, h10, -, -, -, -⟩ :=
    c10_update_status_unconditional_frame samplePost (strOf "published")
      (some (strOf "id1")) none (strOf "T")
  exact ⟨h6 rfl, h10 (strOf "id1") rfl rfl (by decide), h2⟩

/-- C3: the draft status machine of the deployed approval API forbids every
transition out of "published" and out of "rejected" (under any sequence of
operations), permits "pending" to "approved", "pending" to "rejected",
direct "pending" to "published", and idempotent re-approval of an approved
draft, and forbids approving a rejected draft. -/
theorem c3_draft_state_machine :
    (∀ op : DraftOp, stepStatus op (strOf "published") = strOf "published") ∧
    (∀ op : DraftOp, stepStatus op (strOf "rejected") = strOf "rejected") ∧
    (∀ ops : List DraftOp, runOps ops (strOf "published") = strOf "published") ∧
    (∀ ops : List DraftOp, runOps ops (strOf "rejected") = strOf "rejected") ∧
    stepStatus DraftOp.approve (strOf "pending") = strOf "approved" ∧
    stepStatus DraftOp.reject (strOf "pending") = strOf "rejected" ∧
    stepStatus (DraftOp.publish true) (strOf "pending") = strOf "published" ∧
    stepStatus DraftOp.approve (strOf "approved") = strOf "approved" ∧
    stepStatus DraftOp.approve (strOf "rejected") = strOf "rejected" :=
  ⟨stepStatus_published, stepStatus_rejected, runOps_published, runOps_rejected,
   by decide, by decide, by decide, by decide, by decide⟩

lemma batchGo_range' (outcome : Nat → Bool) (d n : Nat) :
    ∀ k i, i + k = n →
      batchGo outcome d n (List.range' i k) =
        ((List.range' i k).map outcome,
         List.intersperse (PEvent.waitFor d) ((List.range' i k).map PEvent.publishItem)) := by
  intro k
  induction k with
  | zero => intro i h; rfl
  | succ k ih =>
    intro i h
    rw [List.range'_succ, batchGo, ih (i + 1) (by omega)]
    cases k with
    | zero =>
      have hn : ¬ (i + 1 < n) := by omega
      simp [hn, List.intersperse_singleton]
    | succ k2 =>
      have hlt : i + 1 < n := by omega
      rw [List.range'_succ]
      simp [hlt, List.intersperse_cons_cons]

/-- C7: batch publishing processes exactly the valid items, strictly in
order, recording one outcome per item regardless of individual failures,
and sleeps for the configured delay exactly once between consecutive
publishes — never before the first and never after the last. -/
theorem c7_batch_publish_schedule {ρ : Type} (results : List (Bool × ρ))
    (outcome : Nat → Bool) (d : Nat) :
    (post_multiple_approved results outcome d).1 =
      (List.range ((results.filter (fun r => r.1)).length)).map outcome ∧
    (post_multiple_approved results outcome d).2 =
      List.intersperse (PEvent.waitFor d)
        ((List.range ((results.filter (fun r => r.1)).length)).map PEvent.publishItem) := by
  unfold post_multiple_approved
  dsimp only
  rw [List.range_eq_range']
  rw [batchGo_range' outcome d ((results.filter (fun r => r.1)).length)
    ((results.filter (fun r => r.1)).length) 0 (by omega)]
  exact ⟨rfl, rfl⟩

lemma post_thread_trace_shape (text : Str) (ap : Bool) (u : Str)
    (cr pb : Except Str ApiResp) (h : text.length ≤ 500) :
    ∃ tail, (post_thread text ap (some u) cr pb).2 =
      NetOp.getUserIdCall :: NetOp.createThreadCall :: tail := by
  unfold post_thread
  rw [if_neg (by omega)]
  rcases cr with e | resp
  · exact ⟨[], rfl⟩
  · dsimp only
    by_cases h200 : resp.status_code = 200
    · rw [if_pos h200]
      rcases pb with e2 | pr <;> cases ap <;> dsimp only <;> split_ifs <;> exact ⟨_, rfl⟩
    · rw [if_neg h200]
      exact ⟨[], rfl⟩

/-- C6: `post_thread` rejects text over 500 characters with a failure
result before any network operation, and for text of 500 characters or
fewer it proceeds to the network — the user-id lookup runs first, and when
a user id is available the thread-creation (publish) request is issued. -/
theorem c6_post_thread_length_guard (text : Str) (ap : Bool) (uid : Option Str)
    (cr pb : Except Str ApiResp) :
    (text.length > 500 →
      (post_thread text ap uid cr pb).1.success = false ∧
      (post_thread text ap uid cr pb).1.error =
        some (strOf "Thread text cannot exceed 500 characters") ∧
      (post_thread text ap uid cr pb).2 = []) ∧
    (text.length ≤ 500 →
      (post_thread text ap uid cr pb).2.head? = some NetOp.getUserIdCall) ∧
    (text.length ≤ 500 → ∀ u : Str, uid = some u →
      NetOp.createThreadCall ∈ (post_thread text ap uid cr pb).2) := by
  refine ⟨?_, ?_, ?_⟩
  · intro h
    unfold post_thread
    rw [if_pos h]
    exact ⟨rfl, rfl, rfl⟩
  · intro h
    rcases huid : uid with _ | u
    · unfold post_thread
      rw [if_neg (by omega)]
      rfl
    · obtain ⟨tail, ht⟩ := post_thread_trace_shape text ap u cr pb h
      rw [ht]
      rfl
  · intro h u huid
    subst huid
    obtain ⟨tail, ht⟩ := post_thread_trace_shape text ap u cr pb h
    rw [ht]
    simp

/-- Witness for C6: a 501-character text is rejected with an empty network
trace, and a 5-character text reaches the user-id lookup and the creation
request. -/
theorem c6_witness :
    (post_thread (List.replicate 501 'a') true (some (strOf "u")) (Except.error [])
      (Except.error [])).2 = [] ∧
    (post_thread (List.replicate 5 'a') true (some (strOf "u")) (Except.error [])
      (Except.error [])).2.head? = some NetOp.getUserIdCall ∧
    NetOp.createThreadCall ∈ (post_thread (List.replicate 5 'a') true (some (strOf "u"))
      (Except.error []) (Except.error [])).2 := by
  refine ⟨?_, ?_, ?_⟩
  · exact ((c6_post_thread_length_guard (List.replicate 501 'a') true (some (strOf "u"))
      (Except.error []) (Except.error [])).1 (by simp only [List.length_replicate]; omega)).2.2
  · exact (c6_post_thread_length_guard (List.replicate 5 'a') true (some (strOf "u"))
      (Except.error []) (Except.error [])).2.1 (by simp only [List.length_replicate]; omega)
  · exact (c6_post_thread_length_guard (List.replicate 5 'a') true (some (strOf "u"))
      (Except.error []) (Except.error [])).2.2 (by simp only [List.length_replicate]; omega) (strOf "u") rfl

/-- C5: `generate_post` invokes the model at most three times, sleeps
exactly `retry_delay * n` seconds after failed attempt `n` (a linear
schedule), returns `none` exactly when all three attempts raise, and every
collaborator exception is absorbed into the `none` result (the function is
total over the exception oracle). -/
theorem c5_generate_post_linear_retry (d : Nat) (api : Nat → Option Str) :
    countApiCalls (generate_post d api).2 ≤ 3 ∧
    ((generate_post d api).1 = none ↔ api 0 = none ∧ api 1 = none ∧ api 2 = none) ∧
    (api 0 = none → api 1 = none → api 2 = none →
      (generate_post d api).2 =
        [GEvent.apiCall 0, GEvent.sleepFor (d * 1), GEvent.apiCall 1,
         GEvent.sleepFor (d * 2), GEvent.apiCall 2]) ∧
    (∀ s, api 0 = some s →
      (generate_post d api).1 = some (post_process s) ∧
      (generate_post d api).2 = [GEvent.apiCall 0]) ∧
    (∀ s, api 0 = none → api 1 = some s →
      (generate_post d api).1 = some (post_process s) ∧
      (generate_post d api).2 =
        [GEvent.apiCall 0, GEvent.sleepFor (d * 1), GEvent.apiCall 1]) ∧
    (∀ s, api 0 = none → api 1 = none → api 2 = some s →
      (generate_post d api).1 = some (post_process s) ∧
      (generate_post d api).2 =
        [GEvent.apiCall 0, GEvent.sleepFor (d * 1), GEvent.apiCall 1,
         GEvent.sleepFor (d * 2), GEvent.apiCall 2]) := by
  rcases h0 : api 0 with _ | s0 <;> rcases h1 : api 1 with _ | s1 <;>
    rcases h2 : api 2 with _ | s2 <;>
      simp [generate_post, generatePostLoop, countApiCalls, List.countP_cons, h0, h1, h2]

/-- Witness for C5: with a first-attempt failure and a second-attempt
success the client sleeps once for `2 * 1` seconds and returns the
post-processed second response. -/
theorem c5_witness :
    (generate_post 2 apiFailFirst).1 = some (post_process (strOf "hello")) ∧
    (generate_post 2 apiFailFirst).2 =
      [GEvent.apiCall 0, GEvent.sleepFor (2 * 1), GEvent.apiCall 1] :=
  (c5_generate_post_linear_retry 2 apiFailFirst).2.2.2.2.1 (strOf "hello") rfl rfl

set_option maxRecDepth 40000

lemma validate_true_props (t : Str) (h : (validate_content t).1 = true) :
    10 ≤ t.length ∧ t.length ≤ 500 ∧ ∀ c ∈ t, isEmojiChar c = false := by
  unfold validate_content at h
  split_ifs at h with h1 h2 h3 h4 h5
  simp at h
  refine ⟨by omega, by omega, ?_⟩
  intro c hc
  by_contra hem
  rw [Bool.not_eq_false] at hem
  exact h4 (List.any_eq_true.mpr ⟨c, hc, hem⟩)

lemma genForBriefLoop_valid {β : Type} (b : β) (gen : Nat → Str → Option Str)
    (bp : Bool → Str) (retry : Bool) (maxA : Nat) :
    ∀ fuel attempt,
      (genForBriefLoop b gen bp retry maxA attempt fuel).1.valid = true →
      ∃ t, (genForBriefLoop b gen bp retry maxA attempt fuel).1.generated_post = some t ∧
        (validate_content t).1 = true := by
  intro fuel
  induction fuel with
  | zero =>
    intro attempt h
    simp [genForBriefLoop] at h
  | succ fuel ih =>
    intro attempt h
    rcases hg : gen attempt (bp (decide (attempt > 0))) with _ | t
    · simp [genForBriefLoop, hg] at h
    · by_cases ht : t = []
      · simp [genForBriefLoop, hg, ht] at h
      · by_cases hv : (validate_content t).1 = true
        · refine ⟨t, ?_, hv⟩
          simp [genForBriefLoop, hg, ht, hv]
        · by_cases hr : (retry && containsSub (strOf "too long") (lowerStr (validate_content t).2)
              && decide (attempt < maxA - 1)) = true
          · have h2 : (genForBriefLoop b gen bp retry maxA (attempt + 1) fuel).1.valid = true := by
              revert h
              simp [genForBriefLoop, hg, ht, hv, hr]
            obtain ⟨t2, hpost, hval⟩ := ih (attempt + 1) h2
            refine ⟨t2, ?_, hval⟩
            simp [genForBriefLoop, hg, ht, hv, hr, hpost]
          · simp [genForBriefLoop, hg, ht, hv, hr] at h

lemma genFromAnalysisLoop_valid {α : Type} (a : α) (gen : Nat → Str → Option Str)
    (mkPrompt : Bool → Str) (retry : Bool) (maxA : Nat) :
    ∀ fuel attempt,
      (genFromAnalysisLoop a gen mkPrompt retry maxA attempt fuel).1.valid = true →
      ∃ t, (genFromAnalysisLoop a gen mkPrompt retry maxA attempt fuel).1.generated_post = some t ∧
        (validate_content t).1 = true := by
  intro fuel
  induction fuel with
  | zero =>
    intro attempt h
    simp [genFromAnalysisLoop] at h
  | succ fuel ih =>
    intro attempt h
    rcases hg : gen attempt (mkPrompt (decide (attempt > 0))) with _ | t
    · simp [genFromAnalysisLoop, hg] at h
    · by_cases ht : t = []
      · simp [genFromAnalysisLoop, hg, ht] at h
      · by_cases hv : (validate_content t).1 = true
        · refine ⟨t, ?_, hv⟩
          simp [genFromAnalysisLoop, hg, ht, hv]
        · by_cases hr : (retry && containsSub (strOf "too long") (lowerStr (validate_content t).2)
              && decide (attempt < maxA - 1)) = true
          · have h2 : (genFromAnalysisLoop a gen mkPrompt retry maxA (attempt + 1) fuel).1.valid
                = true := by
              revert h
              simp [genFromAnalysisLoop, hg, ht, hv, hr]
            obtain ⟨t2, hpost, hval⟩ := ih (attempt + 1) h2
            refine ⟨t2, ?_, hval⟩
            simp [genFromAnalysisLoop, hg, ht, hv, hr, hpost]
          · simp [genFromAnalysisLoop, hg, ht, hv, hr] at h

/-- C1: for both generation paths, a result marked valid carries generated
text that is non-null, between 10 and 500 characters long, and free of
every character in the defined emoji ranges. -/
theorem c1_valid_result_content_rules :
    (∀ (β : Type) (b : β) (gen : Nat → Str → Option Str) (bp : Bool → Str) (retry : Bool),
      (generate_post_for_brief b gen bp retry).1.valid = true →
      ∃ t, (generate_post_for_brief b gen bp retry).1.generated_post = some t ∧
        10 ≤ t.length ∧ t.length ≤ 500 ∧ ∀ c ∈ t, isEmojiChar c = false) ∧
    (∀ (α γ : Type) (posts : Option (List γ)) (analyze : List γ → Option α)
      (mkPrompt : α → Bool → Str) (gen : Nat → Str → Option Str) (retry : Bool),
      (generate_post_from_analysis posts analyze mkPrompt gen retry).1.valid = true →
      ∃ t, (generate_post_from_analysis posts analyze mkPrompt gen retry).1.generated_post
          = some t ∧
        10 ≤ t.length ∧ t.length ≤ 500 ∧ ∀ c ∈ t, isEmojiChar c = false) := by
  constructor
  · intro β b gen bp retry h
    unfold generate_post_for_brief at h ⊢
    obtain ⟨t, hpost, hval⟩ := genForBriefLoop_valid b gen bp retry _ _ _ h
    obtain ⟨h10, h500, hem⟩ := validate_true_props t hval
    exact ⟨t, hpost, h10, h500, hem⟩
  · intro α γ posts analyze mkPrompt gen retry h
    unfold generate_post_from_analysis at h ⊢
    rcases posts with _ | ps
    · simp at h
    · dsimp only at h ⊢
      by_cases hps : ps.isEmpty
      · rw [if_pos hps] at h
        simp at h
      · rw [if_neg hps] at h ⊢
        rcases ha : analyze ps with _ | a <;> rw [ha] at h
        · simp at h
        · dsimp only at h ⊢
          obtain ⟨t, hpost, hval⟩ := genFromAnalysisLoop_valid a gen (mkPrompt a) retry _ _ _ h
          obtain ⟨h10, h500, hem⟩ := validate_true_props t hval
          exact ⟨t, hpost, h10, h500, hem⟩

/-- Witness for C1: concrete oracles producing a valid 20-character text on
both the brief path and the analysis path. -/
theorem c1_witness :
    (∃ t, (generate_post_for_brief () genOk (fun _ => []) true).1.generated_post = some t ∧
      10 ≤ t.length ∧ t.length ≤ 500 ∧ ∀ c ∈ t, isEmojiChar c = false) ∧
    (∃ t, (generate_post_from_analysis (some [()]) (fun _ => some ()) (fun _ _ => [])
        genOk true).1.generated_post = some t ∧
      10 ≤ t.length ∧ t.length ≤ 500 ∧ ∀ c ∈ t, isEmojiChar c = false) := by
  constructor
  · exact c1_valid_result_content_rules.1 Unit () genOk (fun _ => []) true (by decide)
  · exact c1_valid_result_content_rules.2 Unit Unit (some [()]) (fun _ => some ())
      (fun _ _ => []) genOk true (by decide)

lemma genBrief_second_attempt {β : Type} (b : β) (gen : Nat → Str → Option Str)
    (bp : Bool → Str) :
    (genForBriefLoop b gen bp true 2 1 1).1.attempts = 2 ∧
    (genForBriefLoop b gen bp true 2 1 1).2 = [bp true] := by
  rcases hg : gen 1 (bp true) with _ | t
  · simp [genForBriefLoop, hg]
  · by_cases ht : t = []
    · simp [genForBriefLoop, hg, ht]
    · by_cases hv : (validate_content t).1 = true
      · simp [genForBriefLoop, hg, ht, hv]
      · simp [genForBriefLoop, hg, ht, hv]

lemma genBrief_retry_step {β : Type} (b : β) (gen : Nat → Str → Option Str)
    (bp : Bool → Str) (t : Str) (hg : gen 0 (bp false) = some t) (ht : ¬ t = [])
    (hv : ¬ (validate_content t).1 = true)
    (htl : containsSub (strOf "too long") (lowerStr (validate_content t).2) = true) :
    (generate_post_for_brief b gen bp true).1 = (genForBriefLoop b gen bp true 2 1 1).1 ∧
    (generate_post_for_brief b gen bp true).2
      = bp false :: (genForBriefLoop b gen bp true 2 1 1).2 := by
  constructor <;> simp [generate_post_for_brief, genForBriefLoop, hg, ht, hv, htl]

/-- C2: with retry enabled, a single `generate_post_for_brief` call makes
one or two attempts; the second attempt happens exactly when the first
produced non-null text rejected by validation with a reason containing
"too long" (matched case-insensitively), in which case the prompt trace is
the normal prompt followed by the strict-length prompt; a null first
generation or a non-length validation failure is terminal after one
attempt. -/
theorem c2_retry_policy {β : Type} (b : β) (gen : Nat → Str → Option Str) (bp : Bool → Str) :
    ((generate_post_for_brief b gen bp true).1.attempts = 1 ∨
     (generate_post_for_brief b gen bp true).1.attempts = 2) ∧
    ((generate_post_for_brief b gen bp true).1.attempts = 2 →
      ∃ t, gen 0 (bp false) = some t ∧ t ≠ [] ∧ (validate_content t).1 = false ∧
        containsSub (strOf "too long") (lowerStr (validate_content t).2) = true ∧
        (generate_post_for_brief b gen bp true).2 = [bp false, bp true]) ∧
    (gen 0 (bp false) = none → (generate_post_for_brief b gen bp true).1.attempts = 1) ∧
    (∀ t, gen 0 (bp false) = some t → t ≠ [] → (validate_content t).1 = false →
      containsSub (strOf "too long") (lowerStr (validate_content t).2) = false →
      (generate_post_for_brief b gen bp true).1.attempts = 1) := by
  rcases hg : gen 0 (bp false) with _ | t
  · refine ⟨Or.inl ?_, ?_, ?_, ?_⟩ <;>
      simp [generate_post_for_brief, genForBriefLoop, hg]
  · by_cases ht : t = []
    · refine ⟨Or.inl ?_, ?_, ?_, ?_⟩ <;>
        simp [generate_post_for_brief, genForBriefLoop, hg, ht]
    · by_cases hv : (validate_content t).1 = true
      · refine ⟨Or.inl ?_, ?_, ?_, ?_⟩ <;>
          simp [generate_post_for_brief, genForBriefLoop, hg, ht, hv]
      · by_cases htl : containsSub (strOf "too long") (lowerStr (validate_content t).2) = true
        · obtain ⟨ha2, hp2⟩ := genBrief_second_attempt b gen bp
          obtain ⟨hs1, hs2⟩ := genBrief_retry_step b gen bp t hg ht hv htl
          refine ⟨Or.inr ?_, ?_, ?_, ?_⟩
          · rw [hs1]
            exact ha2
          · intro _
            refine ⟨t, rfl, ht, by simpa using hv, htl, ?_⟩
            rw [hs2, hp2]
          · intro hnone
            exact absurd hnone (by simp)
          · intro u hu hune hval htl2
            injection hu with he
            subst he
            rw [htl] at htl2
            exact absurd htl2 (by simp)
        · refine ⟨Or.inl ?_, ?_, ?_, ?_⟩ <;>
            simp [generate_post_for_brief, genForBriefLoop, hg, ht, hv, htl]

/-- Witness for C2: a 520-character first generation triggers the single
strict-prompt retry, so the call reports two attempts and a prompt trace of
the normal prompt then the strict prompt. -/
theorem c2_witness :
    ∃ t, genLongThenOk 0 (bpW false) = some t ∧ t ≠ [] ∧ (validate_content t).1 = false ∧
      containsSub (strOf "too long") (lowerStr (validate_content t).2) = true ∧
      (generate_post_for_brief () genLongThenOk bpW true).2 = [bpW false, bpW true] :=
  (c2_retry_policy () genLongThenOk bpW).2.1 (by decide)

/-- C8 (amended): emoji stripping removes exactly the characters of the
defined ranges — the output contains none of them and is a sublist of the
input (whitespace is trimmed only at the two ends, never collapsed in the
interior, so an emoji between two spaces leaves both spaces). -/
theorem c8_emoji_removal_amended (l : Str) :
    (∀ c ∈ remove_emojis l, isEmojiChar c = false) ∧
    List.Sublist (remove_emojis l) l := by
  constructor
  · intro c hc
    have hc2 : c ∈ l.filter (fun c => !isEmojiChar c) := (stripBoth_sublist _).subset hc
    have hp := (List.mem_filter.mp hc2).2
    simpa using hp
  · exact (stripBoth_sublist _).trans (List.filter_sublist _)

/-- Counterexample for C8: removing the emoji that sits between two spaces
in `exC8` leaves two adjacent spaces, not the single space the claim
demands. -/
theorem c8_counterexample :
    remove_emojis exC8 = ['a', ' ', ' ', 'b'] ∧
    remove_emojis exC8 ≠ ['a', ' ', 'b'] := by decide

/-- Witness for C8: on plain input the stripped output contains the letter
and no emoji character. -/
theorem c8_witness :
    isEmojiChar 'a' = false ∧ List.Sublist (remove_emojis (strOf "ab")) (strOf "ab") := by
  refine ⟨(c8_emoji_removal_amended (strOf "ab")).1 'a' ?_,
    (c8_emoji_removal_amended (strOf "ab")).2⟩
  decide

/-- C4 (amended): smart truncation cuts at the last occurrence of `'?'`
within the first `max` characters when its index strictly exceeds 70% of
the max, then at the last `'!'`, then at the last `'.'` — the priority is
by character class, not proximity to the cut point — inclusive and
trimmed.  In particular, a 600-character text whose only sentence-ending
character sits at index `n` with `350 < n < 500` truncates to exactly the
text up to and including that character; and on `exC4`, whose last `'?'`
is at index 400 while a `'.'` lies nearer the cut at index 490, the cut
happens at the `'?'`. -/
theorem c4_smart_truncation_amended (n : Nat) (h1 : 350 < n) (h2 : n < 500) :
    truncate_text_smart (List.replicate n 'a' ++ '.' :: List.replicate (599 - n) 'b') 500 =
      List.replicate n 'a' ++ ['.'] ∧
    truncate_text_smart exC4 500 = List.replicate 400 'a' ++ ['?'] := by
  constructor
  · set text := List.replicate n 'a' ++ '.' :: List.replicate (599 - n) 'b' with htext
    have hlen : text.length = 600 := by
      rw [htext]
      simp only [List.length_append, List.length_replicate, List.length_cons]
      omega
    have htake : text.take 500 = List.replicate n 'a' ++ '.' :: List.replicate (499 - n) 'b' := by
      rw [htext, List.take_append_eq_append_take,
        List.take_of_length_le (by rw [List.length_replicate]; omega), List.length_replicate]
      congr 1
      have h5 : 500 - n = (499 - n) + 1 := by omega
      have h7 : min (499 - n) (599 - n) = 499 - n := by omega
      rw [h5, List.take_succ_cons, List.take_replicate, h7]
    have hbq : rfindIdx (List.replicate (499 - n) 'b') '?' = none :=
      rfindIdx_replicate_of_ne _ _ _ (by decide)
    have hbe : rfindIdx (List.replicate (499 - n) 'b') '!' = none :=
      rfindIdx_replicate_of_ne _ _ _ (by decide)
    have hbd : rfindIdx (List.replicate (499 - n) 'b') '.' = none :=
      rfindIdx_replicate_of_ne _ _ _ (by decide)
    have h₁ : rfindIdx (text.take 500) '?' = none := by
      rw [htake, rfindIdx_append, rfindIdx, hbq]
      dsimp only
      rw [if_neg (by decide)]
      exact rfindIdx_replicate_of_ne _ _ _ (by decide)
    have h₂ : rfindIdx (text.take 500) '!' = none := by
      rw [htake, rfindIdx_append, rfindIdx, hbe]
      dsimp only
      rw [if_neg (by decide)]
      exact rfindIdx_replicate_of_ne _ _ _ (by decide)
    have h₃ : rfindIdx (text.take 500) '.' = some n := by
      rw [htake, rfindIdx_append, rfindIdx, hbd]
      dsimp only
      rw [if_pos rfl]
      simp [List.length_replicate]
    have hq : firstQualifying (text.take 500) 500 = some n := by
      unfold firstQualifying qualifying
      rw [h₁, h₂, h₃]
      dsimp only
      rw [if_pos (by omega)]
    have htake2 : text.take (n + 1) = List.replicate n 'a' ++ ['.'] := by
      rw [htext, List.take_append_eq_append_take,
        List.take_of_length_le (by rw [List.length_replicate]; omega), List.length_replicate]
      congr 1
      have h6 : n + 1 - n = 1 := by omega
      rw [h6]
      rfl
    unfold truncate_text_smart
    rw [if_neg (by rw [hlen]; omega)]
    dsimp only
    rw [hq]
    dsimp only
    rw [htake2]
    apply stripBoth_eq_self_of_no_space
    intro c hc
    rcases List.mem_append.mp hc with hmem | hmem
    · rw [List.eq_of_mem_replicate hmem]
      decide
    · rw [List.mem_singleton.mp hmem]
      decide
  · decide

/-- Counterexample for C4: in `exC4` the sentence-ending character nearest
to the 500-character cut point is the `'.'` at index 490 (which lies after
70% of the limit), yet smart truncation does not return the text cut there
— it cuts at the farther `'?'` because the scan tries `'?'` before `'.'`. -/
theorem c4_counterexample :
    rfindIdx (exC4.take 500) '.' = some 490 ∧
    truncate_text_smart exC4 500 ≠ stripBoth (exC4.take 491) := by decide

/-- Witness for C4: the amended statement at the instance named by the spec, a
sentence boundary at index 419 of a 600-character text. -/
theorem c4_witness :
    350 < 419 ∧ 419 < 500 ∧
    truncate_text_smart (List.replicate 419 'a' ++ '.' :: List.replicate (599 - 419) 'b') 500 =
      List.replicate 419 'a' ++ ['.'] :=
  ⟨by decide, by decide, (c4_smart_truncation_amended 419 (by decide) (by decide)).1⟩

end DeftThreads
